import Mathlib

/-!
Shallow embedding of `src/backend/main.py`: a FastAPI server exposing a
Stable Diffusion text-to-image pipeline with an optional LoRA adapter.
External library effects (diffusers, peft, safetensors, PIL, base64,
filesystem, CUDA probing) are modelled as fields of an `Env` record;
the request handlers become pure functions of the environment, the
server state (the global `pipe`) and the request. `generate_image`
additionally returns the list of pipeline invocations it performed, so
that claims about when the pipeline is (not) called can be stated.
-/

namespace TextToImage

/-- Abstract tensor payloads of a safetensors state dict (the result of
`safetensors.torch.load_file`). -/
abbrev StateDict := List (String × Nat)

/-- Abstract PIL image handle. -/
abbrev Image := Nat

/-- Python's `str.isspace` character class, the set removed by
`str.strip()` with no argument: tab, newline, vertical tab, form feed,
carriage return and space (U+0009-U+000D, U+0020), the
file/group/record/unit separators U+001C-U+001F, next line U+0085,
no-break space U+00A0, and the Unicode space separators U+1680,
U+2000-U+200A, U+2028, U+2029, U+202F, U+205F and U+3000. -/
def pyIsSpace (c : Char) : Bool :=
  (9 ≤ c.toNat && c.toNat ≤ 13) ||
  (28 ≤ c.toNat && c.toNat ≤ 31) ||
  c.toNat == 32 || c.toNat == 133 || c.toNat == 160 ||
  c.toNat == 0x1680 || (0x2000 ≤ c.toNat && c.toNat ≤ 0x200a) ||
  c.toNat == 0x2028 || c.toNat == 0x2029 ||
  c.toNat == 0x202f || c.toNat == 0x205f || c.toNat == 0x3000

/-- Python's `str.strip()` (no argument): drop leading and trailing
whitespace from the string. -/
def pyStrip (s : String) : String :=
  ⟨((s.data.dropWhile pyIsSpace).reverse.dropWhile pyIsSpace).reverse⟩

/-- `peft.LoraConfig` as constructed in `load_model`
(src/backend/main.py lines 97-103). -/
structure LoraConfig where
  r : Nat
  lora_alpha : Nat
  target_modules : List String
  lora_dropout : Rat
  bias : String
deriving DecidableEq, Repr

/-- The UNet of the pipeline: either the unmodified pretrained weights, or
wrapped by `get_peft_model` with a LoRA configuration; `loadedWeights`
records whether `load_state_dict` succeeded on the wrapper
(src/backend/main.py lines 105-108). -/
inductive UNet where
  | pretrained
  | peftWrapped (cfg : LoraConfig) (loadedWeights : Option StateDict)
deriving DecidableEq, Repr

/-- `torch.Generator(device=DEVICE).manual_seed(seed)`
(src/backend/main.py line 190). -/
inductive TorchGenerator where
  | manualSeed (device : String) (seed : Int)
deriving DecidableEq, Repr

/-- The keyword arguments of the `pipe(...)` call
(src/backend/main.py lines 196-204). -/
structure PipelineArgs where
  prompt : String
  negative_prompt : String
  num_inference_steps : Int
  guidance_scale : Rat
  height : Int
  width : Int
  generator : Option TorchGenerator
deriving DecidableEq, Repr

/-- The object returned by the `pipe(...)` call: `output.images`
(src/backend/main.py line 206). -/
structure DiffOutput where
  images : List Image
deriving DecidableEq, Repr

/-- The global pipeline object once constructed
(src/backend/main.py line 62: `pipe`). -/
structure Pipe where
  unet : UNet
deriving DecidableEq, Repr

/-- External-world interface: each field models one library or OS call
made by `src/backend/main.py`. `pipeCall` takes the current UNet, the
call arguments, and an entropy value standing for the process-global RNG
state consumed when no generator is supplied. -/
structure Env where
  cudaAvailable : Bool
  torchVersion : String
  cudaDeviceName : String
  adapterExists : Bool
  fromPretrained : Except String Unit
  loadFile : Except String StateDict
  loadStateDict : StateDict → Except String Unit
  pipeCall : UNet → PipelineArgs → Nat → Except String DiffOutput
  pngBytes : Image → Except String (List Nat)
  b64encode : List Nat → Except String String

/-- `DEVICE = "cuda" if torch.cuda.is_available() else "cpu"`
(src/backend/main.py line 28). -/
def DEVICE (env : Env) : String :=
  if env.cudaAvailable then "cuda" else "cpu"

/-- `MODEL_ID` (src/backend/main.py line 29). -/
def MODEL_ID : String := "runwayml/stable-diffusion-v1-5"

/-- The `LoraConfig(...)` literal built in `load_model`
(src/backend/main.py lines 97-103). -/
def loraCfg : LoraConfig :=
  { r := 16
    lora_alpha := 32
    target_modules := ["to_q", "to_k", "to_v", "to_out.0"]
    lora_dropout := 0.05
    bias := "none" }

/-- The LoRA branch of `load_model` (src/backend/main.py lines 87-115).
If the adapter file exists, the inner try loads the state dict, wraps the
UNet with `get_peft_model`, and calls `load_state_dict`; any exception in
that block is caught and the function continues with whatever `pipe.unet`
holds at that point. If the file does not exist, the pipe is untouched. -/
def applyLoraIfPresent (env : Env) (p : Pipe) : Pipe :=
  if env.adapterExists then
    match env.loadFile with
    | .error _ => p
    | .ok sd =>
      match env.loadStateDict sd with
      | .error _ => { unet := UNet.peftWrapped loraCfg none }
      | .ok _ => { unet := UNet.peftWrapped loraCfg (some sd) }
  else p

/-- `load_model` (src/backend/main.py lines 64-121): build the base
pipeline from pretrained weights (re-raising on failure), then apply the
LoRA adapter if its file exists. -/
def load_model (env : Env) : Except String Pipe :=
  match env.fromPretrained with
  | .error e => .error e
  | .ok _ => .ok (applyLoraIfPresent env { unet := UNet.pretrained })

/-- The startup event (src/backend/main.py lines 146-149): the global
`pipe` is `some p` exactly when `load_model` succeeded. -/
def startup_event (env : Env) : Option Pipe :=
  (load_model env).toOption

/-- `ImageGenerationRequest` with its pydantic defaults
(src/backend/main.py lines 40-48). -/
structure ImageGenerationRequest where
  prompt : String
  negative_prompt : Option String := none
  num_inference_steps : Int := 50
  guidance_scale : Rat := 7.5
  height : Int := 512
  width : Int := 512
  seed : Option Int := none
deriving DecidableEq, Repr

/-- `ImageGenerationResponse` (src/backend/main.py lines 50-56),
with `generation_time` kept abstract as a rational. -/
structure ImageGenerationResponse where
  success : Bool
  image_base64 : Option String := none
  error : Option String := none
  timestamp : String
  generation_time : Rat
deriving DecidableEq, Repr

/-- `fastapi.HTTPException` as raised by the handlers. -/
structure HTTPError where
  status_code : Nat
  detail : String
deriving DecidableEq, Repr

/-- `/health` handler response (src/backend/main.py lines 151-158). -/
structure HealthResponse where
  status : String
  device : String
  model_loaded : Bool
deriving DecidableEq, Repr

/-- `health_check` (src/backend/main.py lines 151-158). -/
def health_check (env : Env) (pipe : Option Pipe) : HealthResponse :=
  { status := "ok"
    device := DEVICE env
    model_loaded := pipe.isSome }

/-- `/api/models` handler response (src/backend/main.py lines 231-241). -/
structure ModelsInfo where
  base_model : String
  lora_adapter : String
  device : String
  torch_version : String
  cuda_available : Bool
  cuda_device : Option String
deriving DecidableEq, Repr

/-- `get_models_info` (src/backend/main.py lines 231-241): `lora_adapter`
is computed from the adapter file's existence at request time. -/
def get_models_info (env : Env) : ModelsInfo :=
  { base_model := MODEL_ID
    lora_adapter := if env.adapterExists then "loaded" else "not_found"
    device := DEVICE env
    torch_version := env.torchVersion
    cuda_available := env.cudaAvailable
    cuda_device := if env.cudaAvailable then some env.cudaDeviceName else none }

/-- The keyword arguments that `generate_image` passes to `pipe(...)`
(src/backend/main.py lines 188-204). `request.negative_prompt or ""`
yields `""` for both `None` and the empty string; when `request.seed` is
not `None` a fresh generator seeded with it is passed, else `None`. -/
def buildArgs (env : Env) (request : ImageGenerationRequest) : PipelineArgs :=
  { prompt := request.prompt
    negative_prompt := (request.negative_prompt.getD "")
    num_inference_steps := request.num_inference_steps
    guidance_scale := request.guidance_scale
    height := request.height
    width := request.width
    generator := request.seed.map (fun s => TorchGenerator.manualSeed (DEVICE env) s) }

/-- The result of one `generate_image` call: the HTTP outcome, the list of
`pipe(...)` invocations performed, and the value of the global `pipe`
afterwards (the handler never assigns it). -/
structure GenResult where
  outcome : Except HTTPError ImageGenerationResponse
  pipelineCalls : List PipelineArgs
  finalPipe : Option Pipe

/-- `generate_image` (src/backend/main.py lines 160-229). `pipe` is the
global pipeline (`not pipe` on a pipeline object is its `None`-check),
`entropy` the global RNG state a generator-less pipeline call would
consume, `startTime` and `genTime` the two wall-clock reads. The `try`
covers the pipeline call, the `images[0]` indexing, the PNG save and the
base64 encode; any exception there becomes an HTTP 500. -/
def generate_image (env : Env) (pipe : Option Pipe) (request : ImageGenerationRequest)
    (entropy : Nat) (startTime : String) (genTime : Rat) : GenResult :=
  match pipe with
  | none =>
    { outcome := .error { status_code := 503, detail := "Model not loaded. Please try again later." }
      pipelineCalls := []
      finalPipe := none }
  | some p =>
    if request.prompt.isEmpty || (pyStrip request.prompt).isEmpty then
      { outcome := .error { status_code := 400, detail := "Prompt cannot be empty" }
        pipelineCalls := []
        finalPipe := some p }
    else
      let args := buildArgs env request
      match env.pipeCall p.unet args entropy with
      | .error e =>
        { outcome := .error { status_code := 500, detail := "Error generating image: " ++ e }
          pipelineCalls := [args]
          finalPipe := some p }
      | .ok output =>
        match output.images.head? with
        | none =>
          { outcome := .error { status_code := 500, detail := "Error generating image: list index out of range" }
            pipelineCalls := [args]
            finalPipe := some p }
        | some image =>
          match env.pngBytes image with
          | .error e =>
            { outcome := .error { status_code := 500, detail := "Error generating image: " ++ e }
              pipelineCalls := [args]
              finalPipe := some p }
          | .ok bytes =>
            match env.b64encode bytes with
            | .error e =>
              { outcome := .error { status_code := 500, detail := "Error generating image: " ++ e }
                pipelineCalls := [args]
                finalPipe := some p }
            | .ok b64 =>
              { outcome := .ok
                  { success := true
                    image_base64 := some b64
                    error := none
                    timestamp := startTime
                    generation_time := genTime }
                pipelineCalls := [args]
                finalPipe := some p }

/-- The image delivered by a `generate_image` result, if any. -/
def responseImage (g : GenResult) : Option String :=
  match g.outcome with
  | .ok r => r.image_base64
  | .error _ => none

/-! Concrete environments and fixtures used to instantiate theorems. -/

/-- An environment in which every library call succeeds. -/
def envW : Env :=
  { cudaAvailable := false
    torchVersion := "2.0"
    cudaDeviceName := ""
    adapterExists := true
    fromPretrained := .ok ()
    loadFile := .ok [("w", 1)]
    loadStateDict := fun _ => .ok ()
    pipeCall := fun _ _ _ => .ok { images := [7] }
    pngBytes := fun i => .ok [i]
    b64encode := fun _ => .ok "Bw==" }

/-- An environment whose pipeline call raises. -/
def envFail : Env :=
  { envW with pipeCall := fun _ _ _ => .error "boom" }

/-- An environment where the adapter file exists but reading it fails. -/
def envLoadFail : Env :=
  { envW with loadFile := .error "io" }

/-- A loaded pipeline fixture. -/
def pipeW : Pipe := { unet := UNet.pretrained }

/-- A seeded request fixture. -/
def reqW : ImageGenerationRequest := { prompt := "cat", seed := some 5 }

/-- A string whose stripped form is nonempty is itself nonempty. -/
theorem isEmpty_false_of_strip {s : String} (h : (pyStrip s).isEmpty = false) :
    s.isEmpty = false := by
  cases hs : s.isEmpty with
  | false => rfl
  | true =>
    have hse : s = "" := (String.isEmpty_iff s).mp hs
    subst hse
    exact absurd h (by decide)

/-- Claim C1: for a request whose prompt is nonempty after stripping,
handled while the model is loaded, and in which all library calls succeed,
`generate_image` invokes the pipeline exactly once with the request's
prompt and parameters and returns success with the base64 of the PNG
bytes of the first produced image. -/
theorem generate_success_returns_encoded_first_image
    (env : Env) (p : Pipe) (request : ImageGenerationRequest)
    (entropy : Nat) (t : String) (gt : Rat)
    (output : DiffOutput) (image : Image) (bytes : List Nat) (b64 : String)
    (hprompt : (pyStrip request.prompt).isEmpty = false)
    (hcall : env.pipeCall p.unet (buildArgs env request) entropy = .ok output)
    (hfirst : output.images.head? = some image)
    (hpng : env.pngBytes image = .ok bytes)
    (hb64 : env.b64encode bytes = .ok b64) :
    (generate_image env (some p) request entropy t gt).pipelineCalls
        = [buildArgs env request] ∧
    (buildArgs env request).prompt = request.prompt ∧
    (generate_image env (some p) request entropy t gt).outcome
        = .ok { success := true
                image_base64 := some b64
                error := none
                timestamp := t
                generation_time := gt } := by
  have hne : request.prompt.isEmpty = false := isEmpty_false_of_strip hprompt
  refine ⟨?_, rfl, ?_⟩ <;>
    simp [generate_image, hne, hprompt, hcall, hfirst, hpng, hb64]

/-- Closed instance of the C1 theorem. -/
theorem generate_success_returns_encoded_first_image_witness :
    (generate_image envW (some pipeW) reqW 0 "t" 0).outcome
      = .ok { success := true
              image_base64 := some "Bw=="
              error := none
              timestamp := "t"
              generation_time := 0 } :=
  (generate_success_returns_encoded_first_image envW pipeW reqW 0 "t" 0
    { images := [7] } 7 [7] "Bw==" (by decide) rfl rfl rfl rfl).2.2

/-- The delivered image does not depend on the wall-clock readings. -/
theorem responseImage_clock_free
    (env : Env) (pipe : Option Pipe) (request : ImageGenerationRequest)
    (entropy : Nat) (t1 t2 : String) (g1 g2 : Rat) :
    responseImage (generate_image env pipe request entropy t1 g1)
      = responseImage (generate_image env pipe request entropy t2 g2) := by
  cases pipe with
  | none => rfl
  | some p =>
    by_cases hc : (request.prompt.isEmpty || (pyStrip request.prompt).isEmpty) = true
    · simp [generate_image, responseImage, hc]
    · rcases hres : env.pipeCall p.unet (buildArgs env request) entropy with e | output
      · simp [generate_image, responseImage, hc, hres]
      · rcases hh : output.images.head? with _ | image
        · simp [generate_image, responseImage, hc, hres, hh]
        · rcases hp : env.pngBytes image with e | bytes
          · simp [generate_image, responseImage, hc, hres, hh, hp]
          · rcases hb : env.b64encode bytes with e | b64 <;>
              simp [generate_image, responseImage, hc, hres, hh, hp, hb]

/-- Claim C2: when the request carries a seed, two runs with the same
request against the same loaded model yield the same image, for any RNG
entropy and wall-clock readings, provided the library pipeline ignores
the process RNG once an explicit generator is supplied. -/
theorem seeded_generation_deterministic
    (env : Env) (pipe : Option Pipe) (request : ImageGenerationRequest)
    (e1 e2 : Nat) (t1 t2 : String) (g1 g2 : Rat) (s : Int)
    (hdet : ∀ u a x y, a.generator.isSome = true → env.pipeCall u a x = env.pipeCall u a y)
    (hseed : request.seed = some s) :
    responseImage (generate_image env pipe request e1 t1 g1)
      = responseImage (generate_image env pipe request e2 t2 g2) := by
  have hclock := responseImage_clock_free env pipe request e1 t1 t2 g1 g2
  refine hclock.trans ?_
  cases pipe with
  | none => rfl
  | some p =>
    by_cases hc : (request.prompt.isEmpty || (pyStrip request.prompt).isEmpty) = true
    · simp [generate_image, responseImage, hc]
    · have hgen : (buildArgs env request).generator.isSome = true := by
        simp [buildArgs, hseed]
      have hpc := hdet p.unet (buildArgs env request) e1 e2 hgen
      simp only [generate_image]
      rw [if_neg hc, if_neg hc, hpc]

/-- Closed instance of the C2 theorem: two runs with distinct entropy and
clock readings deliver the same image. -/
theorem seeded_generation_deterministic_witness :
    responseImage (generate_image envW (some pipeW) reqW 0 "a" 0)
      = responseImage (generate_image envW (some pipeW) reqW 1 "b" 1) :=
  seeded_generation_deterministic envW (some pipeW) reqW 0 1 "a" "b" 0 1 5
    (fun _ _ _ _ _ => rfl) rfl

/-- Claim C9: a request built from a prompt alone carries the documented
defaults, and a `none` negative prompt reaches the pipeline as `""`. -/
theorem request_defaults (p : String) (env : Env) :
    ({ prompt := p } : ImageGenerationRequest).negative_prompt = none ∧
    ({ prompt := p } : ImageGenerationRequest).num_inference_steps = 50 ∧
    ({ prompt := p } : ImageGenerationRequest).guidance_scale = 7.5 ∧
    ({ prompt := p } : ImageGenerationRequest).height = 512 ∧
    ({ prompt := p } : ImageGenerationRequest).width = 512 ∧
    ({ prompt := p } : ImageGenerationRequest).seed = none ∧
    (∀ r : ImageGenerationRequest, r.negative_prompt = none →
      (buildArgs env r).negative_prompt = "") :=
  ⟨rfl, rfl, rfl, rfl, rfl, rfl, fun r h => by simp [buildArgs, h]⟩

/-- Closed instance of the C9 theorem. -/
theorem request_defaults_witness :
    (buildArgs envW { prompt := "cat" }).negative_prompt = "" :=
  (request_defaults "cat" envW).2.2.2.2.2.2 { prompt := "cat" } rfl

/-- Claim C3: when the adapter file exists and both reading it and
loading the state dict succeed, `load_model` wraps the UNet with the
LoRA configuration of rank 16, alpha 32 and target modules exactly
`to_q`, `to_k`, `to_v`, `to_out.0`, holding the loaded state dict; when
the file does not exist the UNet stays the pretrained one. -/
theorem load_model_lora_branch (env : Env) (sd : StateDict)
    (hbase : env.fromPretrained = .ok ()) :
    (env.adapterExists = true → env.loadFile = .ok sd →
      env.loadStateDict sd = .ok () →
      load_model env = .ok
        { unet := UNet.peftWrapped
            { r := 16
              lora_alpha := 32
              target_modules := ["to_q", "to_k", "to_v", "to_out.0"]
              lora_dropout := 0.05
              bias := "none" }
            (some sd) }) ∧
    (env.adapterExists = false → load_model env = .ok { unet := UNet.pretrained }) := by
  constructor
  · intro hex hfile hsd
    simp [load_model, applyLoraIfPresent, loraCfg, hbase, hex, hfile, hsd]
  · intro hex
    simp [load_model, applyLoraIfPresent, hbase, hex]

/-- Closed instance of the C3 theorem. -/
theorem load_model_lora_branch_witness :
    load_model envW = .ok
      { unet := UNet.peftWrapped
          { r := 16
            lora_alpha := 32
            target_modules := ["to_q", "to_k", "to_v", "to_out.0"]
            lora_dropout := 0.05
            bias := "none" }
          (some [("w", 1)]) } :=
  (load_model_lora_branch envW [("w", 1)] rfl).1 rfl rfl rfl

/-- Claim C4: the only server state is whether `pipe` is set: `/health`
reports exactly `pipe.isSome`, `/api/generate` answers 503 whenever the
pipeline is missing, and the handler leaves the pipeline untouched. -/
theorem single_state_flag
    (env : Env) (pipe : Option Pipe) (request : ImageGenerationRequest)
    (entropy : Nat) (t : String) (gt : Rat) :
    (health_check env pipe).model_loaded = pipe.isSome ∧
    (pipe = none → (generate_image env pipe request entropy t gt).outcome
        = .error { status_code := 503
                   detail := "Model not loaded. Please try again later." }) ∧
    (generate_image env pipe request entropy t gt).finalPipe = pipe := by
  refine ⟨rfl, ?_, ?_⟩
  · intro h
    subst h
    rfl
  · cases pipe with
    | none => rfl
    | some p =>
      simp only [generate_image]
      repeat' split
      all_goals rfl

/-- Closed instance of the C4 theorem at the empty state. -/
theorem single_state_flag_witness :
    (health_check envW none).model_loaded = (none : Option Pipe).isSome ∧
    ((none : Option Pipe) = none →
      (generate_image envW none reqW 0 "t" 0).outcome
        = .error { status_code := 503
                   detail := "Model not loaded. Please try again later." }) ∧
    (generate_image envW none reqW 0 "t" 0).finalPipe = none :=
  single_state_flag envW none reqW 0 "t" 0

/-- Claim C5: with the model loaded and a nonempty prompt, the handler
calls the pipeline exactly once (no retry), never changes the loaded
pipeline, and a failure of the pipeline call, of the PNG save, or of the
base64 encode is reported as HTTP 500 whose detail carries the
exception message. -/
theorem generation_errors_become_500
    (env : Env) (p : Pipe) (request : ImageGenerationRequest)
    (entropy : Nat) (t : String) (gt : Rat)
    (hprompt : (pyStrip request.prompt).isEmpty = false) :
    (generate_image env (some p) request entropy t gt).finalPipe = some p ∧
    (generate_image env (some p) request entropy t gt).pipelineCalls
        = [buildArgs env request] ∧
    (∀ m, env.pipeCall p.unet (buildArgs env request) entropy = .error m →
      (generate_image env (some p) request entropy t gt).outcome
        = .error { status_code := 500, detail := "Error generating image: " ++ m }) ∧
    (∀ output image m,
      env.pipeCall p.unet (buildArgs env request) entropy = .ok output →
      output.images.head? = some image → env.pngBytes image = .error m →
      (generate_image env (some p) request entropy t gt).outcome
        = .error { status_code := 500, detail := "Error generating image: " ++ m }) ∧
    (∀ output image bytes m,
      env.pipeCall p.unet (buildArgs env request) entropy = .ok output →
      output.images.head? = some image → env.pngBytes image = .ok bytes →
      env.b64encode bytes = .error m →
      (generate_image env (some p) request entropy t gt).outcome
        = .error { status_code := 500, detail := "Error generating image: " ++ m }) := by
  have hne : request.prompt.isEmpty = false := isEmpty_false_of_strip hprompt
  refine ⟨?_, ?_, ?_, ?_, ?_⟩
  · simp only [generate_image]
    repeat' split
    all_goals rfl
  · simp only [generate_image]
    rw [if_neg (by simp [hne, hprompt])]
    repeat' split
    all_goals rfl
  · intro m hm
    simp [generate_image, hne, hprompt, hm]
  · intro output image m h1 h2 h3
    simp [generate_image, hne, hprompt, h1, h2, h3]
  · intro output image bytes m h1 h2 h3 h4
    simp [generate_image, hne, hprompt, h1, h2, h3, h4]

/-- Closed instance of the C5 theorem: a raising pipeline call becomes a
500 whose detail carries the message, with the pipeline state intact. -/
theorem generation_errors_become_500_witness :
    (generate_image envFail (some pipeW) reqW 0 "t" 0).outcome
      = .error { status_code := 500, detail := "Error generating image: boom" } :=
  (generation_errors_become_500 envFail pipeW reqW 0 "t" 0 (by decide)).2.2.1
    "boom" rfl

/-- Claim C6: every pipeline invocation performed by the handler carries
the request's sampling hyperparameters unchanged. -/
theorem hyperparameters_forwarded
    (env : Env) (pipe : Option Pipe) (request : ImageGenerationRequest)
    (entropy : Nat) (t : String) (gt : Rat) (a : PipelineArgs)
    (ha : a ∈ (generate_image env pipe request entropy t gt).pipelineCalls) :
    a.num_inference_steps = request.num_inference_steps ∧
    a.guidance_scale = request.guidance_scale ∧
    a.height = request.height ∧
    a.width = request.width := by
  have hmem : a = buildArgs env request := by
    cases pipe with
    | none => simp [generate_image] at ha
    | some p =>
      simp only [generate_image] at ha
      repeat' split at ha
      all_goals simp_all
  subst hmem
  exact ⟨rfl, rfl, rfl, rfl⟩

/-- Closed instance of the C6 theorem. -/
theorem hyperparameters_forwarded_witness :
    (buildArgs envW reqW).num_inference_steps = reqW.num_inference_steps ∧
    (buildArgs envW reqW).guidance_scale = reqW.guidance_scale ∧
    (buildArgs envW reqW).height = reqW.height ∧
    (buildArgs envW reqW).width = reqW.width :=
  hyperparameters_forwarded envW (some pipeW) reqW 0 "t" 0 (buildArgs envW reqW)
    (by exact List.mem_singleton.mpr rfl)

/-- Claim C7 counterexample: an empty-prompt request received while the
model is NOT loaded is answered with 503, not with the claimed 400. -/
theorem empty_prompt_unloaded_counterexample :
    (generate_image envW none { prompt := "" } 0 "t" 0).outcome
      = .error { status_code := 503
                 detail := "Model not loaded. Please try again later." } ∧
    (generate_image envW none { prompt := "" } 0 "t" 0).outcome
      ≠ .error { status_code := 400, detail := "Prompt cannot be empty" } := by
  refine ⟨rfl, ?_⟩
  intro h
  rw [show (generate_image envW none { prompt := "" } 0 "t" 0).outcome
      = .error { status_code := 503
                 detail := "Model not loaded. Please try again later." } from rfl] at h
  simp at h

/-- Claim C7 (amended): an empty or whitespace-only prompt never reaches
the pipeline, and when the model is loaded such a request is answered
with HTTP 400 `Prompt cannot be empty`. -/
theorem empty_prompt_rejected
    (env : Env) (pipe : Option Pipe) (p : Pipe) (request : ImageGenerationRequest)
    (entropy : Nat) (t : String) (gt : Rat)
    (hempty : (pyStrip request.prompt).isEmpty = true) :
    (generate_image env pipe request entropy t gt).pipelineCalls = [] ∧
    (pipe = some p → (generate_image env pipe request entropy t gt).outcome
        = .error { status_code := 400, detail := "Prompt cannot be empty" }) := by
  constructor
  · cases pipe with
    | none => rfl
    | some q => simp [generate_image, hempty]
  · intro h
    subst h
    simp [generate_image, hempty]

/-- Closed instance of the amended C7 theorem. -/
theorem empty_prompt_rejected_witness :
    (generate_image envW (some pipeW) { prompt := "  " } 0 "t" 0).outcome
      = .error { status_code := 400, detail := "Prompt cannot be empty" } :=
  (empty_prompt_rejected envW (some pipeW) pipeW { prompt := "  " } 0 "t" 0
    (by decide)).2 rfl

/-- Claim C8: `/api/models` reports the adapter as loaded exactly when
the adapter file exists, and it still answers `"loaded"` when reading the
adapter file failed at startup and the server silently kept the
unmodified pretrained UNet. -/
theorem models_reports_file_existence (env : Env) (m : String) :
    ((get_models_info env).lora_adapter = "loaded" ↔ env.adapterExists = true) ∧
    (env.fromPretrained = .ok () → env.adapterExists = true →
      env.loadFile = .error m →
      load_model env = .ok { unet := UNet.pretrained } ∧
      (get_models_info env).lora_adapter = "loaded") := by
  constructor
  · cases hA : env.adapterExists <;> simp [get_models_info, hA]
  · intro h1 h2 h3
    constructor
    · simp [load_model, applyLoraIfPresent, h1, h2, h3]
    · simp [get_models_info, h2]

/-- Closed instance of the C8 theorem: the adapter file exists but
cannot be read, the pipeline stays unadapted, the report says loaded. -/
theorem models_reports_file_existence_witness :
    load_model envLoadFail = .ok { unet := UNet.pretrained } ∧
    (get_models_info envLoadFail).lora_adapter = "loaded" :=
  (models_reports_file_existence envLoadFail "io").2 rfl rfl rfl

end TextToImage
